import Mathlib

/-!
Verification of the core game logic of the `wasm-game` repository
(a 2D side-scrolling runner compiled to WebAssembly).

The Rust sources `src/engine.rs` and `src/game.rs` are shallowly embedded
below.  Machine integers (`i16`) are modelled as `Int` — every arithmetic
operation performed by the game on the inputs considered here stays far
inside the `i16` range, so no wrap-around is modelled — and the `u8`
animation-frame counter is modelled as `Nat`.  Side-effecting handles
(audio, HTML image elements used only for drawing) carry no game-logic
data and are either dropped or reduced to the numeric fields the logic
reads.  Operations that can panic in Rust (`expect` on a missing sprite
cell, a failed `assert!`) return `Option`, with `none` marking the panic.
-/

namespace WasmGame

/-- Integer 2D coordinate (`engine.rs`, `Point`). -/
structure Point where
  x : Int
  y : Int
deriving DecidableEq, Repr

/-- Axis-aligned box (`engine.rs`, `Rect`): a position plus width and height. -/
structure Rect where
  position : Point
  width : Int
  height : Int
deriving DecidableEq, Repr

namespace Rect

/-- Rust `Rect::new`. -/
def new (position : Point) (width height : Int) : Rect :=
  { position := position, width := width, height := height }

/-- Rust `Rect::new_from_x_y`. -/
def new_from_x_y (x y width height : Int) : Rect :=
  new { x := x, y := y } width height

/-- Rust `Rect::default` (all fields zero). -/
def default : Rect := new { x := 0, y := 0 } 0 0

/-- Rust `Rect::x`. -/
def x (r : Rect) : Int := r.position.x

/-- Rust `Rect::y`. -/
def y (r : Rect) : Int := r.position.y

/-- Rust `Rect::right`. -/
def right (r : Rect) : Int := r.position.x + r.width

/-- Rust `Rect::bottom`. -/
def bottom (r : Rect) : Int := r.position.y + r.height

/-- Rust `Rect::set_x` (returns the updated value; Rust mutates in place). -/
def set_x (r : Rect) (nx : Int) : Rect :=
  { r with position := { r.position with x := nx } }

/-- Rust `Rect::intersects`: the axis-aligned open-interval overlap test. -/
def intersects (a b : Rect) : Bool :=
  decide (a.x < b.right) && decide (a.right > b.x)
    && decide (a.y < b.bottom) && decide (a.bottom > b.y)

end Rect

/-- Rectangle inside the sprite atlas (`engine.rs`, `SheetRect`). -/
structure SheetRect where
  x : Int
  y : Int
  w : Int
  h : Int
deriving DecidableEq, Repr

/-- One sprite-atlas entry (`engine.rs`, `Cell`): the frame inside the
spritesheet and the source-size offset used to align sprite padding. -/
structure Cell where
  frame : SheetRect
  sprite_source_size : SheetRect
deriving DecidableEq, Repr

/-- Sprite atlas (`engine.rs`, `Sheet`): a map from frame name to `Cell`,
modelled as an association list. -/
structure Sheet where
  frames : List (String × Cell)
deriving DecidableEq, Repr

/-- Lookup in the atlas (Rust `self.frames.get(name)`). -/
def Sheet.get (s : Sheet) (name : String) : Option Cell :=
  (s.frames.find? (fun p => p.1 = name)).map (fun p => p.2)

/-- Obstacle sprite sheet (`engine.rs`, `SpriteSheet`); the image element is
draw-only and carries no game-logic data, so it is dropped. -/
structure SpriteSheet where
  sheet : Sheet
deriving DecidableEq, Repr

/-- Rust `SpriteSheet::cell`. -/
def SpriteSheet.cell (s : SpriteSheet) (name : String) : Option Cell :=
  s.sheet.get name

/-- The numeric data of an `HtmlImageElement`: its natural width and height,
which are the only fields the game logic reads (`Image::new`). -/
structure HtmlImageElement where
  width : Int
  height : Int
deriving DecidableEq, Repr

/-- A placed image (`engine.rs`, `Image`): an element plus its bounding box. -/
structure Image where
  element : HtmlImageElement
  bounding_box : Rect
deriving DecidableEq, Repr

namespace Image

/-- Rust `Image::new`: the bounding box takes the element's natural size. -/
def new (element : HtmlImageElement) (position : Point) : Image :=
  { element := element
    bounding_box := Rect.new position element.width element.height }

/-- Rust `Image::set_x`. -/
def set_x (i : Image) (x : Int) : Image :=
  { i with bounding_box := i.bounding_box.set_x x }

/-- Rust `Image::move_horizontally`. -/
def move_horizontally (i : Image) (distance : Int) : Image :=
  i.set_x (i.bounding_box.x + distance)

/-- Rust `Image::right`. -/
def right (i : Image) : Int := i.bounding_box.right

end Image

/-- Keyboard state (`engine.rs`, `KeyState`): the set of currently pressed
key codes, modelled as a list. -/
structure KeyState where
  pressed_keys : List String
deriving DecidableEq, Repr

/-- Rust `KeyState::is_pressed`. -/
def KeyState.is_pressed (k : KeyState) (code : String) : Bool :=
  k.pressed_keys.contains code

/-! Constants of `game.rs` and its `red_hat_boy_states` module. -/

def HEIGHT : Int := 600
def TIMELINE_MINIMUM : Int := 1000
def OBSTACLE_BUFFER : Int := 20
def FLOOR : Int := 480
def STARTING_POINT : Int := -50
def IDLE_FRAMES : Nat := 29
def RUN_FRAMES : Nat := 23
def RUNNING_SPEED : Int := 3
def SLIDING_FRAMES : Nat := 14
def JUMPING_FRAMES : Nat := 35
def JUMP_SPEED : Int := -25
def FALLING_FRAMES : Nat := 29
def GRAVITY : Int := 1
def PLAYER_HEIGHT : Int := HEIGHT - FLOOR
def TERMINAL_VELOCITY : Int := 20
def IDLE_FRAME_NAME : String := "Idle"
def RUN_FRAME_NAME : String := "Run"
def SLIDING_FRAME_NAME : String := "Slide"
def JUMPING_FRAME_NAME : String := "Jump"
def FALLING_FRAME_NAME : String := "Dead"

/-- Physics context of the character (`game.rs`, `RedHatBoyContext`): the
`u8` animation-frame counter (as `Nat`), position and velocity.  The audio
handle and jump sound it also carries are side-effect-only and dropped. -/
structure RedHatBoyContext where
  frame : Nat
  position : Point
  velocity : Point
deriving DecidableEq, Repr

namespace RedHatBoyContext

/-- Rust `RedHatBoyContext::update`: gravity capped by terminal velocity,
frame advance with wrap, vertical integration, floor clamp. -/
def update (c : RedHatBoyContext) (frame_count : Nat) : RedHatBoyContext :=
  let c := if c.velocity.y < TERMINAL_VELOCITY then
      { c with velocity := { c.velocity with y := c.velocity.y + GRAVITY } }
    else c
  let c := if c.frame < frame_count then { c with frame := c.frame + 1 }
    else { c with frame := 0 }
  let c := { c with position := { c.position with y := c.position.y + c.velocity.y } }
  if c.position.y > FLOOR then { c with position := { c.position with y := FLOOR } }
  else c

/-- Rust `RedHatBoyContext::reset_frame`. -/
def reset_frame (c : RedHatBoyContext) : RedHatBoyContext := { c with frame := 0 }

/-- Rust `RedHatBoyContext::run_right`. -/
def run_right (c : RedHatBoyContext) : RedHatBoyContext :=
  { c with velocity := { c.velocity with x := c.velocity.x + RUNNING_SPEED } }

/-- Rust `RedHatBoyContext::set_vertical_velocity`. -/
def set_vertical_velocity (c : RedHatBoyContext) (y : Int) : RedHatBoyContext :=
  { c with velocity := { c.velocity with y := y } }

/-- Rust `RedHatBoyContext::stop`: zero both velocity components. -/
def stop (c : RedHatBoyContext) : RedHatBoyContext :=
  { c with velocity := { x := 0, y := 0 } }

/-- Rust `RedHatBoyContext::set_on`: place the feet on the given surface y. -/
def set_on (c : RedHatBoyContext) (position : Int) : RedHatBoyContext :=
  { c with position := { c.position with y := position - PLAYER_HEIGHT } }

/-- Rust `RedHatBoyContext::play_jump_sound`: side effect only, identity on
the context data. -/
def play_jump_sound (c : RedHatBoyContext) : RedHatBoyContext := c

end RedHatBoyContext

/-- The character state machine (`game.rs`, `RedHatBoyStateMachine`): a closed
variant over the six typestates, each wrapping the shared physics context. -/
inductive RedHatBoyStateMachine where
  | idle (ctx : RedHatBoyContext)
  | running (ctx : RedHatBoyContext)
  | sliding (ctx : RedHatBoyContext)
  | jumping (ctx : RedHatBoyContext)
  | falling (ctx : RedHatBoyContext)
  | knockedOut (ctx : RedHatBoyContext)
deriving DecidableEq, Repr

/-- Events delivered to the character state machine (`game.rs`, `Event`). -/
inductive Event where
  | run
  | slide
  | update
  | jump
  | knockOut
  | land (position : Int)
deriving DecidableEq, Repr

/-! Per-state operations of the `red_hat_boy_states` module. -/

/-- Initial context of `RedHatBoyState::<Idle>::new`. -/
def idleNewContext : RedHatBoyContext :=
  { frame := 0
    position := { x := STARTING_POINT, y := FLOOR }
    velocity := { x := 0, y := 0 } }

/-- Rust `RedHatBoyState::<Idle>::run`: context of the resulting Running state. -/
def idle_run (c : RedHatBoyContext) : RedHatBoyContext :=
  (c.reset_frame).run_right

/-- Rust `RedHatBoyState::<Running>::slide`: context of the Sliding state. -/
def running_slide (c : RedHatBoyContext) : RedHatBoyContext := c.reset_frame

/-- Rust `RedHatBoyState::<Running>::jump`: context of the Jumping state. -/
def running_jump (c : RedHatBoyContext) : RedHatBoyContext :=
  ((c.reset_frame).set_vertical_velocity JUMP_SPEED).play_jump_sound

/-- Rust `knock_out` on Running/Sliding/Jumping: context of the Falling state. -/
def knock_out_context (c : RedHatBoyContext) : RedHatBoyContext :=
  (c.reset_frame).stop

/-- Rust `land_on` for Running and Sliding: `set_on` without a frame reset. -/
def land_on_context (c : RedHatBoyContext) (position : Int) : RedHatBoyContext :=
  c.set_on position

/-- Rust `RedHatBoyState::<Jumping>::land_on`: frame reset then `set_on`. -/
def jumping_land_on_context (c : RedHatBoyContext) (position : Int) : RedHatBoyContext :=
  (c.reset_frame).set_on position

/-- Rust `RedHatBoyState::<Sliding>::update`, folded through `SlidingEndState`. -/
def sliding_update (c : RedHatBoyContext) : RedHatBoyStateMachine :=
  let c := c.update SLIDING_FRAMES
  if c.frame ≥ SLIDING_FRAMES then .running c.reset_frame else .sliding c

/-- Rust `RedHatBoyState::<Jumping>::update`, folded through `JumpingEndState`. -/
def jumping_update (c : RedHatBoyContext) : RedHatBoyStateMachine :=
  let c := c.update JUMPING_FRAMES
  if c.position.y ≥ FLOOR then .running (jumping_land_on_context c HEIGHT)
  else .jumping c

/-- Rust `RedHatBoyState::<Falling>::update`, folded through `FallingEndState`. -/
def falling_update (c : RedHatBoyContext) : RedHatBoyStateMachine :=
  let c := c.update FALLING_FRAMES
  if c.frame ≥ FALLING_FRAMES then .knockedOut c else .falling c

namespace RedHatBoyStateMachine

/-- Rust `RedHatBoyStateMachine::transition`: the full transition match,
with the catch-all arm returning `self` unchanged. -/
def transition (s : RedHatBoyStateMachine) (e : Event) : RedHatBoyStateMachine :=
  match s, e with
  | .idle c, .run => .running (idle_run c)
  | .running c, .slide => .sliding (running_slide c)
  | .idle c, .update => .idle (c.update IDLE_FRAMES)
  | .running c, .update => .running (c.update RUN_FRAMES)
  | .sliding c, .update => sliding_update c
  | .jumping c, .update => jumping_update c
  | .falling c, .update => falling_update c
  | .running c, .jump => .jumping (running_jump c)
  | .sliding c, .knockOut => .falling (knock_out_context c)
  | .jumping c, .knockOut => .falling (knock_out_context c)
  | .running c, .knockOut => .falling (knock_out_context c)
  | .jumping c, .land p => .running (jumping_land_on_context c p)
  | .running c, .land p => .running (land_on_context c p)
  | .sliding c, .land p => .running (land_on_context c p)
  | s, _ => s

/-- Rust `RedHatBoyStateMachine::context`. -/
def context : RedHatBoyStateMachine → RedHatBoyContext
  | .idle c | .running c | .sliding c | .jumping c | .falling c | .knockedOut c => c

/-- Rust `RedHatBoyStateMachine::frame_name`. -/
def frame_name : RedHatBoyStateMachine → String
  | .idle _ => IDLE_FRAME_NAME
  | .running _ => RUN_FRAME_NAME
  | .sliding _ => SLIDING_FRAME_NAME
  | .jumping _ => JUMPING_FRAME_NAME
  | .falling _ => FALLING_FRAME_NAME
  | .knockedOut _ => FALLING_FRAME_NAME

/-- Rust `RedHatBoyStateMachine::update`. -/
def update (s : RedHatBoyStateMachine) : RedHatBoyStateMachine :=
  s.transition Event.update

/-- Rust `RedHatBoyStateMachine::knocked_out`. -/
def knocked_out : RedHatBoyStateMachine → Bool
  | .knockedOut _ => true
  | _ => false

end RedHatBoyStateMachine

/-- Membership in the transition table of `RedHatBoyStateMachine::transition`:
exactly the (state, event) pairs with an explicit arm in the source match. -/
def inTransitionTable : RedHatBoyStateMachine → Event → Bool
  | .idle _, .run => true
  | .running _, .slide => true
  | .idle _, .update => true
  | .running _, .update => true
  | .sliding _, .update => true
  | .jumping _, .update => true
  | .falling _, .update => true
  | .running _, .jump => true
  | .sliding _, .knockOut => true
  | .jumping _, .knockOut => true
  | .running _, .knockOut => true
  | .jumping _, .land _ => true
  | .running _, .land _ => true
  | .sliding _, .land _ => true
  | _, _ => false

/-- The character (`game.rs`, `RedHatBoy`): state machine plus its sprite
sheet; the `HtmlImageElement` spritesheet image is draw-only and dropped. -/
structure RedHatBoy where
  state_machine : RedHatBoyStateMachine
  sprite_sheet : Sheet
deriving DecidableEq, Repr

namespace RedHatBoy

/-- Rust `RedHatBoy::new` (the audio and sound arguments are dropped). -/
def new (sheet : Sheet) : RedHatBoy :=
  { state_machine := .idle idleNewContext, sprite_sheet := sheet }

/-- Rust `RedHatBoy::frame_name`: the atlas key of the current sprite frame. -/
def frame_name (boy : RedHatBoy) : String :=
  boy.state_machine.frame_name ++ " (" ++
    toString (boy.state_machine.context.frame / 3 + 1) ++ ").png"

/-- Rust `RedHatBoy::current_sprite`. -/
def current_sprite (boy : RedHatBoy) : Option Cell :=
  boy.sprite_sheet.get boy.frame_name

/-- Rust `RedHatBoy::destination_box`; `none` models the `expect` panic when
the sprite cell is missing from the atlas. -/
def destination_box (boy : RedHatBoy) : Option Rect :=
  boy.current_sprite.map fun sprite =>
    { position :=
        { x := boy.state_machine.context.position.x + sprite.sprite_source_size.x
          y := boy.state_machine.context.position.y + sprite.sprite_source_size.y }
      width := sprite.frame.w
      height := sprite.frame.h }

def X_OFFSET : Int := 18
def Y_OFFSET : Int := 14
def WIDTH_OFFSET : Int := 28

/-- Rust `RedHatBoy::bounding_box`: the destination box with `set_x(18)`,
width shrunk by 28 and height shrunk by 14. -/
def bounding_box (boy : RedHatBoy) : Option Rect :=
  boy.destination_box.map fun b =>
    let b := b.set_x X_OFFSET
    let b := { b with width := b.width - WIDTH_OFFSET }
    { b with height := b.height - Y_OFFSET }

/-- Rust `RedHatBoy::walking_speed`. -/
def walking_speed (boy : RedHatBoy) : Int :=
  boy.state_machine.context.velocity.x

/-- Rust `RedHatBoy::update`. -/
def update (boy : RedHatBoy) : RedHatBoy :=
  { boy with state_machine := boy.state_machine.update }

/-- Rust `RedHatBoy::run_right`. -/
def run_right (boy : RedHatBoy) : RedHatBoy :=
  { boy with state_machine := boy.state_machine.transition Event.run }

/-- Rust `RedHatBoy::slide`. -/
def slide (boy : RedHatBoy) : RedHatBoy :=
  { boy with state_machine := boy.state_machine.transition Event.slide }

/-- Rust `RedHatBoy::jump`. -/
def jump (boy : RedHatBoy) : RedHatBoy :=
  { boy with state_machine := boy.state_machine.transition Event.jump }

/-- Rust `RedHatBoy::knock_out`. -/
def knock_out (boy : RedHatBoy) : RedHatBoy :=
  { boy with state_machine := boy.state_machine.transition Event.knockOut }

/-- Rust `RedHatBoy::knocked_out`. -/
def knocked_out (boy : RedHatBoy) : Bool :=
  boy.state_machine.knocked_out

/-- Rust `RedHatBoy::pos_y`. -/
def pos_y (boy : RedHatBoy) : Int :=
  boy.state_machine.context.position.y

/-- Rust `RedHatBoy::velocity_y`. -/
def velocity_y (boy : RedHatBoy) : Int :=
  boy.state_machine.context.velocity.y

/-- Rust `RedHatBoy::land_on`. -/
def land_on (boy : RedHatBoy) (position : Int) : RedHatBoy :=
  { boy with state_machine := boy.state_machine.transition (Event.land position) }

/-- Rust `RedHatBoy::reset`: a fresh boy over the same sheet (and the same
audio handles, which are dropped in this model). -/
def reset (boy : RedHatBoy) : RedHatBoy :=
  RedHatBoy.new boy.sprite_sheet

end RedHatBoy

/-- A platform obstacle (`game.rs`, `Platform`): its world-placed bounding
boxes and draw position.  The sprite sheet and sprite cells are draw-only
and dropped. -/
structure Platform where
  bounding_boxes : List Rect
  position : Point
deriving DecidableEq, Repr

namespace Platform

/-- Rust `Platform::new`: offsets the template bounding boxes by the
placement position (the sprite lookup part is draw-only and dropped). -/
def new (position : Point) (bounding_boxes : List Rect) : Platform :=
  { position := position
    bounding_boxes := bounding_boxes.map fun b =>
      Rect.new_from_x_y (b.x + position.x) (b.y + position.y) b.width b.height }

/-- Rust `<Platform as Obstacle>::move_horizontally`. -/
def move_horizontally (p : Platform) (x : Int) : Platform :=
  { p with
    position := { p.position with x := p.position.x + x }
    bounding_boxes := p.bounding_boxes.map fun b => b.set_x (b.position.x + x) }

/-- Rust `<Platform as Obstacle>::check_intersection`: find the first
platform box intersecting the boy's box; land on it when the boy moves
downward and sits above the platform position, otherwise knock the boy out.
`none` models the panic of the boy's sprite lookup. -/
def check_intersection (p : Platform) (boy : RedHatBoy) : Option RedHatBoy :=
  match boy.bounding_box with
  | none => none
  | some bb =>
    match p.bounding_boxes.find? (fun b => bb.intersects b) with
    | some box_to_land_on =>
        if boy.velocity_y > 0 ∧ boy.pos_y < p.position.y then
          some (boy.land_on box_to_land_on.y)
        else
          some boy.knock_out
    | none => some boy

/-- Rust `<Platform as Obstacle>::right`: the right edge of the LAST
bounding box (`Rect::default` when the list is empty). -/
def right (p : Platform) : Int :=
  (p.bounding_boxes.getLast?.getD Rect.default).right

end Platform

/-- A barrier obstacle (`game.rs`, `Barrier`): a single placed image. -/
structure Barrier where
  image : Image
deriving DecidableEq, Repr

namespace Barrier

/-- Rust `<Barrier as Obstacle>::check_intersection`: any intersection
knocks the boy out; `none` models the sprite-lookup panic. -/
def check_intersection (b : Barrier) (boy : RedHatBoy) : Option RedHatBoy :=
  match boy.bounding_box with
  | none => none
  | some bb =>
    if bb.intersects b.image.bounding_box then some boy.knock_out else some boy

/-- Rust `<Barrier as Obstacle>::move_horizontally`. -/
def move_horizontally (b : Barrier) (x : Int) : Barrier :=
  { b with image := b.image.move_horizontally x }

/-- Rust `<Barrier as Obstacle>::right`. -/
def right (b : Barrier) : Int := b.image.right

end Barrier

/-- The closed obstacle variant (`game.rs`, trait objects over the
`Obstacle` trait, whose implementors are exactly `Platform` and `Barrier`). -/
inductive Obstacle where
  | platform (p : Platform)
  | barrier (b : Barrier)
deriving DecidableEq, Repr

namespace Obstacle

/-- Dynamic dispatch of `Obstacle::move_horizontally`. -/
def move_horizontally : Obstacle → Int → Obstacle
  | .platform p, x => .platform (p.move_horizontally x)
  | .barrier b, x => .barrier (b.move_horizontally x)

/-- Dynamic dispatch of `Obstacle::check_intersection`. -/
def check_intersection : Obstacle → RedHatBoy → Option RedHatBoy
  | .platform p, boy => p.check_intersection boy
  | .barrier b, boy => b.check_intersection boy

/-- Dynamic dispatch of `Obstacle::right`. -/
def right : Obstacle → Int
  | .platform p => p.right
  | .barrier b => b.right

end Obstacle

/-- Rust `right_most`: the maximum right edge over an obstacle list, 0 when
the list is empty. -/
def right_most (obstacle_list : List Obstacle) : Int :=
  ((obstacle_list.map Obstacle.right).max?).getD 0

/-- Modelled from the spec: `src/segment.rs` (the segment generator defining
`stone_and_platform` and `platform_and_stone`) is not under `src/`.  Per the
spec, a template is a literal arrangement of platform tile spans and/or a
barrier at relative offsets, placed at a horizontal start offset.  This
models the `stone_and_platform` starting template as one stone barrier and,
to its right, one platform span. -/
def stone_and_platform (stone : HtmlImageElement) (sheet : SpriteSheet)
    (offset_x : Int) : List Obstacle :=
  let _ := sheet
  [ .barrier { image := Image.new stone { x := offset_x + 150, y := 546 } },
    .platform (Platform.new { x := offset_x + 200, y := 400 }
      [Rect.new_from_x_y 0 0 200 54]) ]

/-- Modelled from the spec: the second layout template of the missing
`src/segment.rs`, a platform span followed by a stone barrier. -/
def platform_and_stone (stone : HtmlImageElement) (sheet : SpriteSheet)
    (offset_x : Int) : List Obstacle :=
  let _ := sheet
  [ .platform (Platform.new { x := offset_x, y := 400 }
      [Rect.new_from_x_y 0 0 200 54]),
    .barrier { image := Image.new stone { x := offset_x + 350, y := 546 } } ]

/-- The world (`game.rs`, `Walk`): shared obstacle sheet, the boy, two
background layers (the `[Image; 2]` array as a pair), live obstacles, the
stone image and the timeline cursor. -/
structure Walk where
  obstacle_sheet : SpriteSheet
  boy : RedHatBoy
  backgrounds : Image × Image
  obstacles : List Obstacle
  stone : HtmlImageElement
  timeline : Int
deriving DecidableEq, Repr

/-- External effects of one orchestrator tick made explicit: the value the
`thread_rng().gen_range(0..2)` call returns in `generate_next_segment`, and
whether the GameOver "New Game" channel has delivered its signal. -/
structure Env where
  rngChoice : Nat
  newGamePressed : Bool
deriving DecidableEq, Repr

namespace Walk

/-- Rust `Walk::reset`: fresh boy and freshly generated starting obstacles,
backgrounds and assets carried over. -/
def reset (walk : Walk) : Walk :=
  let starting_obstacles := stone_and_platform walk.stone walk.obstacle_sheet 0
  { obstacle_sheet := walk.obstacle_sheet
    boy := walk.boy.reset
    backgrounds := walk.backgrounds
    obstacles := starting_obstacles
    stone := walk.stone
    timeline := right_most starting_obstacles }

/-- Rust `Walk::knocked_out`. -/
def knocked_out (walk : Walk) : Bool := walk.boy.knocked_out

/-- Rust `Walk::velocity`: the world scrolls opposite to the boy's speed. -/
def velocity (walk : Walk) : Int := -walk.boy.walking_speed

/-- Rust `Walk::generate_next_segment`, with the random draw supplied by the
environment; the `_ => vec![]` arm of the source match is kept. -/
def generate_next_segment (walk : Walk) (env : Env) : Walk :=
  let next_obstacles :=
    match env.rngChoice with
    | 0 => stone_and_platform walk.stone walk.obstacle_sheet
        (walk.timeline + OBSTACLE_BUFFER)
    | 1 => platform_and_stone walk.stone walk.obstacle_sheet
        (walk.timeline + OBSTACLE_BUFFER)
    | _ => []
  { walk with
    timeline := right_most next_obstacles
    obstacles := walk.obstacles ++ next_obstacles }

end Walk

/-- The run state machine (`game.rs`, `WalkTheDogStateMachine`); the
GameOver receiver lives in `Env`. -/
inductive WalkTheDogStateMachine where
  | ready (walk : Walk)
  | walking (walk : Walk)
  | gameOver (walk : Walk)
deriving DecidableEq, Repr

/-- One `iter_mut().for_each` pass of the Walking update: each obstacle is
moved horizontally and then checks intersection against the (threaded) boy;
`none` propagates a sprite-lookup panic. -/
def moveAndCheckAll (speed : Int) :
    RedHatBoy → List Obstacle → Option (RedHatBoy × List Obstacle)
  | boy, [] => some (boy, [])
  | boy, o :: rest =>
    let o := o.move_horizontally speed
    match o.check_intersection boy with
    | none => none
    | some boy =>
      match moveAndCheckAll speed boy rest with
      | none => none
      | some (boy, os) => some (boy, o :: os)

/-- Rust `WalkTheDogState::<Ready>::update` (with `start_running` and
`run_right` inlined), folded through `ReadyEndState`. -/
def readyStateUpdate (walk : Walk) (keystate : KeyState) : WalkTheDogStateMachine :=
  let walk := { walk with boy := walk.boy.update }
  if keystate.is_pressed "ArrowRight" then
    .walking { walk with boy := walk.boy.run_right }
  else
    .ready walk

/-- Rust `WalkTheDogState::<Walking>::update`, folded through
`WalkingEndState`; `end_game`'s UI side effects are dropped.  Note the
source runs the obstacle move/check loop twice. -/
def walkingStateUpdate (walk : Walk) (keystate : KeyState) (env : Env) :
    Option WalkTheDogStateMachine :=
  let walk := if keystate.is_pressed "Space" then
      { walk with boy := walk.boy.jump } else walk
  let walk := if keystate.is_pressed "ArrowDown" then
      { walk with boy := walk.boy.slide } else walk
  let walk := { walk with boy := walk.boy.update }
  let walking_spped := walk.velocity
  let first_background := (walk.backgrounds.1).move_horizontally walking_spped
  let second_background := (walk.backgrounds.2).move_horizontally walking_spped
  let first_background := if first_background.right < (0 : Int) then
      first_background.set_x second_background.right else first_background
  let second_background := if second_background.right < (0 : Int) then
      second_background.set_x first_background.right else second_background
  let walk := { walk with
    backgrounds := (first_background, second_background)
    obstacles := walk.obstacles.filter fun o => decide (o.right > 0) }
  match moveAndCheckAll walking_spped walk.boy walk.obstacles with
  | none => none
  | some (boy, obstacles) =>
    match moveAndCheckAll walking_spped boy obstacles with
    | none => none
    | some (boy, obstacles) =>
      let walk := { walk with boy := boy, obstacles := obstacles }
      let walk := if walk.timeline < TIMELINE_MINIMUM then
          walk.generate_next_segment env
        else
          { walk with timeline := walk.timeline + walking_spped }
      if walk.knocked_out then
        some (.gameOver walk)
      else
        some (.walking walk)

/-- Rust `WalkTheDogState::<GameOver>::update` (with `new_game` inlined),
folded through `GameOverEndState`; the channel poll is read from `Env`. -/
def gameOverStateUpdate (walk : Walk) (env : Env) : WalkTheDogStateMachine :=
  if env.newGamePressed then .ready walk.reset else .gameOver walk

/-- Rust `WalkTheDogStateMachine::update`: dispatch on the run state. -/
def WalkTheDogStateMachine.update (m : WalkTheDogStateMachine)
    (keystate : KeyState) (env : Env) : Option WalkTheDogStateMachine :=
  match m with
  | .ready walk => some (readyStateUpdate walk keystate)
  | .walking walk => walkingStateUpdate walk keystate env
  | .gameOver walk => some (gameOverStateUpdate walk env)

/-- The top-level game object (`game.rs`, `WalkTheDog`): an optional run
state machine, `none` until `initialize` has run. -/
structure WalkTheDog where
  machine : Option WalkTheDogStateMachine
deriving DecidableEq, Repr

/-- Rust `WalkTheDog::new`. -/
def WalkTheDog.new : WalkTheDog := { machine := none }

/-- Rust `<WalkTheDog as Game>::update`: `take` the machine, step it, then
`replace` it; the trailing `assert!(self.machine.is_some())` is modelled by
returning `none` (panic) when the assertion would fail.  A `none` from the
inner step is a propagated panic. -/
def WalkTheDog.update (g : WalkTheDog) (keystate : KeyState) (env : Env) :
    Option WalkTheDog :=
  let taken := g.machine
  let g : WalkTheDog := { machine := none }
  let stepped : Option WalkTheDog :=
    match taken with
    | some machine =>
      match machine.update keystate env with
      | some machine => some { g with machine := some machine }
      | none => none
    | none => some g
  match stepped with
  | some g => if g.machine.isSome then some g else none
  | none => none

/-! Concrete fixtures used by the counterexamples and witnesses below. -/

/-- A sample idle sprite cell: frame 100×100 in the atlas, source offset (10, 5). -/
def cIdleCell : Cell :=
  { frame := { x := 0, y := 0, w := 100, h := 100 }
    sprite_source_size := { x := 10, y := 5, w := 0, h := 0 } }

/-- A sample run sprite cell with the same geometry as `cIdleCell`. -/
def cRunCell : Cell :=
  { frame := { x := 0, y := 0, w := 100, h := 100 }
    sprite_source_size := { x := 10, y := 5, w := 0, h := 0 } }

/-- An atlas holding the first idle and run frames. -/
def cSheet : Sheet := { frames := [("Idle (1).png", cIdleCell), ("Run (1).png", cRunCell)] }

/-- A freshly constructed boy (Idle at the starting position) over `cSheet`. -/
def cBoyIdle : RedHatBoy := RedHatBoy.new cSheet

/-- A platform whose single box intersects `cBoyIdle`'s collision box. -/
def cPlatIdle : Platform :=
  { position := { x := 0, y := 400 }
    bounding_boxes := [Rect.new_from_x_y 0 500 200 54] }

/-- A running boy in mid-air above `cPlatLand`, moving downward. -/
def cBoyRun : RedHatBoy :=
  { state_machine := .running
      { frame := 0, position := { x := -50, y := 300 }, velocity := { x := 3, y := 5 } }
    sprite_sheet := cSheet }

/-- A platform positioned below `cBoyRun`, intersecting its collision box. -/
def cPlatLand : Platform :=
  { position := { x := 0, y := 350 }
    bounding_boxes := [Rect.new_from_x_y 0 380 200 54] }

/-- No key is pressed. -/
def cNoKeys : KeyState := { pressed_keys := [] }

/-- A quiescent environment: random draw 0, no new-game signal. -/
def cEnvQuiet : Env := { rngChoice := 0, newGamePressed := false }

/-- A boy running on the floor at speed 3. -/
def cBoyRunFloor : RedHatBoy :=
  { state_machine := .running
      { frame := 0, position := { x := -50, y := 480 }, velocity := { x := 3, y := 0 } }
    sprite_sheet := cSheet }

/-- A Walking-state world with one barrier at x = 100 (right edge 130),
far from the boy, and the timeline past the generation threshold. -/
def cWalkScroll : Walk :=
  { obstacle_sheet := { sheet := cSheet }
    boy := cBoyRunFloor
    backgrounds := (Image.new { width := 600, height := 600 } { x := 0, y := 0 },
                    Image.new { width := 600, height := 600 } { x := 600, y := 0 })
    obstacles := [.barrier { image := Image.new { width := 30, height := 30 }
                               { x := 100, y := 0 } }]
    stone := { width := 30, height := 30 }
    timeline := 2000 }

/-- A Walking-state world whose single barrier has right edge exactly 0. -/
def cWalkRetain : Walk :=
  { obstacle_sheet := { sheet := cSheet }
    boy := cBoyRunFloor
    backgrounds := (Image.new { width := 600, height := 600 } { x := 0, y := 0 },
                    Image.new { width := 600, height := 600 } { x := 600, y := 0 })
    obstacles := [.barrier { image := Image.new { width := 30, height := 30 }
                               { x := -30, y := 0 } }]
    stone := { width := 30, height := 30 }
    timeline := 2000 }

/-- The boy of `cWalkScroll`/`cWalkRetain` after one tick: frame advanced,
gravity applied once, position clamped back to the floor. -/
def cBoyRunFloorNext : RedHatBoy :=
  { state_machine := .running
      { frame := 1, position := { x := -50, y := 480 }, velocity := { x := 3, y := 1 } }
    sprite_sheet := cSheet }

/-- The world `cWalkScroll` after one Walking update (computed value). -/
def cWalkScrollNext : Walk :=
  { obstacle_sheet := { sheet := cSheet }
    boy := cBoyRunFloorNext
    backgrounds := ({ element := { width := 600, height := 600 }
                      bounding_box := Rect.new_from_x_y (-3) 0 600 600 },
                    { element := { width := 600, height := 600 }
                      bounding_box := Rect.new_from_x_y 597 0 600 600 })
    obstacles := [.barrier { image := { element := { width := 30, height := 30 }
                                        bounding_box := Rect.new_from_x_y 94 0 30 30 } }]
    stone := { width := 30, height := 30 }
    timeline := 1997 }

/-- The world `cWalkRetain` after one Walking update (computed value). -/
def cWalkRetainNext : Walk :=
  { obstacle_sheet := { sheet := cSheet }
    boy := cBoyRunFloorNext
    backgrounds := ({ element := { width := 600, height := 600 }
                      bounding_box := Rect.new_from_x_y (-3) 0 600 600 },
                    { element := { width := 600, height := 600 }
                      bounding_box := Rect.new_from_x_y 597 0 600 600 })
    obstacles := []
    stone := { width := 30, height := 30 }
    timeline := 1997 }

end WasmGame

namespace WasmGame

/-- C7: the rectangle intersection test is symmetric, and edge-touching
rectangles (sharing a vertical or horizontal edge) never intersect. -/
theorem intersects_symm_and_open :
    (∀ a b : Rect, a.intersects b = b.intersects a) ∧
    (∀ a b : Rect,
      (a.right = b.x ∨ b.right = a.x ∨ a.bottom = b.y ∨ b.bottom = a.y) →
      a.intersects b = false) := by
  constructor
  · intro a b
    simp only [Rect.intersects, Rect.x, Rect.right, Rect.y, Rect.bottom,
      ← Bool.decide_and, decide_eq_decide]
    omega
  · intro a b h
    rw [Bool.eq_false_iff]
    intro hc
    simp only [Rect.intersects, Rect.x, Rect.right, Rect.y, Rect.bottom,
      Bool.and_eq_true, decide_eq_true_eq] at hc
    simp only [Rect.x, Rect.right, Rect.y, Rect.bottom] at h
    omega

/-- Witness for C7 at concrete rectangles: symmetry at two sample boxes, and
a pair sharing only the edge x = 5 does not intersect. -/
theorem intersects_symm_and_open_witness :
    (Rect.new_from_x_y 0 0 5 5).intersects (Rect.new_from_x_y 3 3 9 9)
      = (Rect.new_from_x_y 3 3 9 9).intersects (Rect.new_from_x_y 0 0 5 5) ∧
    (Rect.new_from_x_y 0 0 5 5).intersects (Rect.new_from_x_y 5 0 9 9) = false := by
  refine ⟨intersects_symm_and_open.1 _ _, ?_⟩
  exact intersects_symm_and_open.2 (Rect.new_from_x_y 0 0 5 5)
    (Rect.new_from_x_y 5 0 9 9) (Or.inl (by decide))

/-- C3 fails on the code: `RedHatBoy::bounding_box` sets the collision box's
x to the constant 18 rather than to the destination box's x plus 18.  For
the fresh idle boy the destination box starts at x = −40, so the claimed
left edge would be −22, but the computed collision box starts at 18. -/
theorem bounding_box_absolute_x_counterexample :
    cBoyIdle.destination_box = some (Rect.new_from_x_y (-40) 485 100 100) ∧
    cBoyIdle.bounding_box = some (Rect.new_from_x_y 18 485 72 86) ∧
    (18 : Int) ≠ -40 + 18 := by decide

/-- C3 (amended): for every state and frame with a resolvable sprite, the
collision box equals the destination box with its x set to the constant 18,
width shrunk by 28 and height shrunk by 14, y unchanged. -/
theorem bounding_box_margins_amended (boy : RedHatBoy) (d : Rect)
    (h : boy.destination_box = some d) :
    boy.bounding_box = some
      { position := { x := RedHatBoy.X_OFFSET, y := d.position.y }
        width := d.width - RedHatBoy.WIDTH_OFFSET
        height := d.height - RedHatBoy.Y_OFFSET } := by
  simp [RedHatBoy.bounding_box, h, Rect.set_x]

/-- Witness for the amended C3 at the fresh idle boy. -/
theorem bounding_box_margins_amended_witness :
    cBoyIdle.bounding_box = some
      { position := { x := RedHatBoy.X_OFFSET, y := 485 }
        width := 100 - RedHatBoy.WIDTH_OFFSET
        height := 100 - RedHatBoy.Y_OFFSET } :=
  bounding_box_margins_amended cBoyIdle (Rect.new_from_x_y (-40) 485 100 100)
    (by decide)

/-- C5: every (state, event) pair without an explicit arm in the transition
match is a no-op — `transition` returns the same variant with an identical
physics context. -/
theorem transition_noop (s : RedHatBoyStateMachine) (e : Event)
    (h : inTransitionTable s e = false) :
    s.transition e = s := by
  cases s <;> cases e <;> first
    | rfl
    | simp [inTransitionTable] at h

/-- Witness for C5: delivering Slide to Idle leaves the state untouched. -/
theorem transition_noop_witness :
    inTransitionTable (.idle idleNewContext) Event.slide = false ∧
    RedHatBoyStateMachine.transition (.idle idleNewContext) Event.slide
      = .idle idleNewContext :=
  ⟨by decide, transition_noop (.idle idleNewContext) Event.slide (by decide)⟩

/-- C6 fails on the code: `RedHatBoyContext::update` lets the frame counter
reach the frame count itself.  At counter 28 with the idle frame count 29,
the update returns counter 29 — outside [0, 29) and not 0. -/
theorem frame_counter_counterexample :
    (RedHatBoyContext.update
        { frame := IDLE_FRAMES - 1
          position := { x := STARTING_POINT, y := FLOOR }
          velocity := { x := 0, y := 0 } } IDLE_FRAMES).frame = IDLE_FRAMES ∧
    ¬ (IDLE_FRAMES < IDLE_FRAMES) ∧ IDLE_FRAMES ≠ 0 := by decide

/-- C6 (amended): the frame counter wraps modulo N + 1, not N: starting in
[0, N] it stays in [0, N], increments strictly below N, and an update taken
at counter value N returns it to 0. -/
theorem frame_counter_amended (c : RedHatBoyContext) (N : Nat)
    (h : c.frame ≤ N) :
    (c.update N).frame ≤ N ∧
    (c.frame < N → (c.update N).frame = c.frame + 1) ∧
    (c.frame = N → (c.update N).frame = 0) := by
  simp only [RedHatBoyContext.update]
  split <;> split <;> split <;> simp_all <;> omega

/-- Witness for the amended C6 at counter 5 with the idle frame count. -/
theorem frame_counter_amended_witness :
    (RedHatBoyContext.update
        { frame := 5, position := { x := 0, y := 0 }
          velocity := { x := 0, y := 0 } } IDLE_FRAMES).frame ≤ IDLE_FRAMES ∧
    (5 < IDLE_FRAMES →
      (RedHatBoyContext.update
        { frame := 5, position := { x := 0, y := 0 }
          velocity := { x := 0, y := 0 } } IDLE_FRAMES).frame = 5 + 1) ∧
    (5 = IDLE_FRAMES →
      (RedHatBoyContext.update
        { frame := 5, position := { x := 0, y := 0 }
          velocity := { x := 0, y := 0 } } IDLE_FRAMES).frame = 0) :=
  frame_counter_amended
    { frame := 5, position := { x := 0, y := 0 }, velocity := { x := 0, y := 0 } }
    IDLE_FRAMES (by decide)

/-- Helper: in a list of rectangles whose right edges are pairwise
non-decreasing, every right edge is bounded by the last element's. -/
theorem right_le_getLast_of_pairwise :
    ∀ (l : List Rect), l.Pairwise (fun a b => a.right ≤ b.right) →
      ∀ last, l.getLast? = some last → ∀ b ∈ l, b.right ≤ last.right := by
  intro l
  induction l with
  | nil => intro _ last hlast; simp at hlast
  | cons x xs ih =>
    intro hp last hlast b hb
    rcases List.pairwise_cons.mp hp with ⟨hx, hxs⟩
    cases xs with
    | nil =>
      simp only [List.getLast?_singleton, Option.some.injEq] at hlast
      simp only [List.mem_cons, List.not_mem_nil, or_false] at hb
      subst hlast hb
      exact le_refl _
    | cons y ys =>
      rw [List.getLast?_cons_cons] at hlast
      rcases List.mem_cons.mp hb with hb | hb
      · subst hb
        rcases List.mem_getLast?_eq_getLast (Option.mem_def.mpr hlast) with ⟨hne, hl⟩
        exact hl ▸ hx _ (List.getLast_mem hne)
      · exact ih hxs last hlast b hb

/-- C8 fails on the code: `Platform::right` reports the right edge of the
LAST bounding box, not the maximum one.  With boxes whose right edges are
50 then 10, the platform reports 10 while its maximum right edge is 50. -/
theorem platform_right_counterexample :
    Platform.right
      { position := { x := 0, y := 0 }
        bounding_boxes := [Rect.new_from_x_y 0 0 50 10, Rect.new_from_x_y 0 20 10 10] }
      = 10 ∧
    Rect.new_from_x_y 0 0 50 10 ∈
      ({ position := { x := 0, y := 0 }
         bounding_boxes := [Rect.new_from_x_y 0 0 50 10, Rect.new_from_x_y 0 20 10 10] }
        : Platform).bounding_boxes ∧
    (Rect.new_from_x_y 0 0 50 10).right = 50 ∧ (10 : Int) < 50 := by decide

/-- C8 (amended): a platform's reported right edge is the right edge of its
last bounding box; whenever the boxes are ordered with non-decreasing right
edges (as the generated templates are), that is the maximum right edge.  A
barrier's reported right edge is that of its single image box, as claimed. -/
theorem obstacle_right_amended (p : Platform) (brr : Barrier)
    (hne : p.bounding_boxes ≠ [])
    (hmono : p.bounding_boxes.Pairwise (fun a b => a.right ≤ b.right)) :
    p.right = (p.bounding_boxes.getLast hne).right ∧
    (∀ b ∈ p.bounding_boxes, b.right ≤ p.right) ∧
    (∃ b ∈ p.bounding_boxes, p.right = b.right) ∧
    brr.right = brr.image.bounding_box.right := by
  have hlast : p.bounding_boxes.getLast? = some (p.bounding_boxes.getLast hne) :=
    List.getLast?_eq_getLast_of_ne_nil hne
  have hright : p.right = (p.bounding_boxes.getLast hne).right := by
    simp [Platform.right, hlast]
  refine ⟨hright, ?_, ?_, rfl⟩
  · intro b hb
    rw [hright]
    exact right_le_getLast_of_pairwise p.bounding_boxes hmono _ hlast b hb
  · exact ⟨p.bounding_boxes.getLast hne, List.getLast_mem hne, hright⟩

/-- Witness for the amended C8 at a two-box platform ordered left to right
and a stone barrier. -/
theorem obstacle_right_amended_witness :
    Platform.right
      { position := { x := 0, y := 0 }
        bounding_boxes := [Rect.new_from_x_y 0 0 10 10, Rect.new_from_x_y 20 0 30 10] }
      = (([Rect.new_from_x_y 0 0 10 10,
           Rect.new_from_x_y 20 0 30 10].getLast (by decide)) : Rect).right ∧
    (∀ b ∈ ({ position := { x := 0, y := 0 }
              bounding_boxes := [Rect.new_from_x_y 0 0 10 10, Rect.new_from_x_y 20 0 30 10] }
             : Platform).bounding_boxes,
        b.right ≤ Platform.right
          { position := { x := 0, y := 0 }
            bounding_boxes := [Rect.new_from_x_y 0 0 10 10, Rect.new_from_x_y 20 0 30 10] }) ∧
    (∃ b ∈ ({ position := { x := 0, y := 0 }
              bounding_boxes := [Rect.new_from_x_y 0 0 10 10, Rect.new_from_x_y 20 0 30 10] }
             : Platform).bounding_boxes,
        Platform.right
          { position := { x := 0, y := 0 }
            bounding_boxes := [Rect.new_from_x_y 0 0 10 10, Rect.new_from_x_y 20 0 30 10] }
          = b.right) ∧
    Barrier.right { image := Image.new { width := 30, height := 30 } { x := 0, y := 0 } }
      = ({ image := Image.new { width := 30, height := 30 } { x := 0, y := 0 } }
          : Barrier).image.bounding_box.right :=
  obstacle_right_amended
    { position := { x := 0, y := 0 }
      bounding_boxes := [Rect.new_from_x_y 0 0 10 10, Rect.new_from_x_y 20 0 30 10] }
    { image := Image.new { width := 30, height := 30 } { x := 0, y := 0 } }
    (by decide) (by decide)

/-- C1 fails on the code in its knock-out half: the KnockOut event is ignored
outside Running/Sliding/Jumping.  An Idle boy with zero vertical velocity
intersecting a platform box is left completely unchanged — it is not sent
toward Falling. -/
theorem platform_knockout_state_counterexample :
    cBoyIdle.bounding_box = some (Rect.new_from_x_y 18 485 72 86) ∧
    cPlatIdle.bounding_boxes.find?
        (fun b => (Rect.new_from_x_y 18 485 72 86).intersects b)
      = some (Rect.new_from_x_y 0 500 200 54) ∧
    cBoyIdle.velocity_y = 0 ∧
    cPlatIdle.check_intersection cBoyIdle = some cBoyIdle ∧
    cBoyIdle.state_machine = .idle idleNewContext := by decide

/-- C1 (amended): on an intersection, `Platform::check_intersection` issues
a Land event on the first intersecting box exactly when the boy's vertical
velocity is strictly positive and the boy's position y is above the
platform's position y, and a KnockOut event otherwise.  Land snaps a
Running/Sliding/Jumping boy to Running with position y at the box top minus
the player height; KnockOut sends a Running/Sliding/Jumping boy to Falling
and leaves Idle/Falling/KnockedOut boys unchanged. -/
theorem platform_resolution_amended (p : Platform) (boy : RedHatBoy)
    (bb box : Rect)
    (hbb : boy.bounding_box = some bb)
    (hfind : p.bounding_boxes.find? (fun b => bb.intersects b) = some box) :
    (boy.velocity_y > 0 ∧ boy.pos_y < p.position.y →
      p.check_intersection boy = some (boy.land_on box.y) ∧
      (∀ c, boy.state_machine = .running c ∨ boy.state_machine = .sliding c ∨
            boy.state_machine = .jumping c →
        ∃ c', (boy.land_on box.y).state_machine = .running c' ∧
          c'.position.y = box.y - PLAYER_HEIGHT)) ∧
    (¬ (boy.velocity_y > 0 ∧ boy.pos_y < p.position.y) →
      p.check_intersection boy = some boy.knock_out ∧
      (∀ c, boy.state_machine = .running c ∨ boy.state_machine = .sliding c ∨
            boy.state_machine = .jumping c →
        ∃ c', boy.knock_out.state_machine = .falling c') ∧
      (∀ c, boy.state_machine = .idle c ∨ boy.state_machine = .falling c ∨
            boy.state_machine = .knockedOut c →
        boy.knock_out = boy)) := by
  constructor
  · intro hcond
    constructor
    · simp [Platform.check_intersection, hbb, hfind, hcond]
    · intro c hc
      rcases hc with hc | hc | hc
      · exact ⟨land_on_context c box.y,
          by simp [RedHatBoy.land_on, hc, RedHatBoyStateMachine.transition], rfl⟩
      · exact ⟨land_on_context c box.y,
          by simp [RedHatBoy.land_on, hc, RedHatBoyStateMachine.transition], rfl⟩
      · exact ⟨jumping_land_on_context c box.y,
          by simp [RedHatBoy.land_on, hc, RedHatBoyStateMachine.transition], rfl⟩
  · intro hcond
    refine ⟨?_, ?_, ?_⟩
    · simp [Platform.check_intersection, hbb, hfind, hcond]
    · intro c hc
      rcases hc with hc | hc | hc <;>
        exact ⟨knock_out_context c, by
          simp [RedHatBoy.knock_out, hc, RedHatBoyStateMachine.transition]⟩
    · intro c hc
      rcases hc with hc | hc | hc <;>
        · simp [RedHatBoy.knock_out, hc, RedHatBoyStateMachine.transition]
          rw [← hc]

/-- Witness for the amended C1: the running boy over `cPlatLand` satisfies
the land-on conditions and is snapped onto the box top at y = 380. -/
theorem platform_resolution_amended_witness :
    cPlatLand.check_intersection cBoyRun = some (cBoyRun.land_on 380) := by
  have h := platform_resolution_amended cPlatLand cBoyRun
    (Rect.new_from_x_y 18 305 72 86) (Rect.new_from_x_y 0 380 200 54)
    (by decide) (by decide)
  exact (h.1 (by decide)).1

/-- Helper: the physics update never changes the horizontal velocity. -/
theorem context_update_velocity_x (c : RedHatBoyContext) (n : Nat) :
    (c.update n).velocity.x = c.velocity.x := by
  simp only [RedHatBoyContext.update]
  split_ifs <;> rfl

/-- Helper: the Update event never changes the horizontal velocity. -/
theorem transition_update_velocity_x (s : RedHatBoyStateMachine) :
    (s.transition Event.update).context.velocity.x = s.context.velocity.x := by
  cases s <;>
    simp only [RedHatBoyStateMachine.transition, RedHatBoyStateMachine.context,
      sliding_update, jumping_update, falling_update, jumping_land_on_context,
      RedHatBoyContext.reset_frame, RedHatBoyContext.set_on] <;>
    (try split_ifs) <;>
    simp [context_update_velocity_x]

/-- Helper: the Jump event never changes the horizontal velocity. -/
theorem transition_jump_velocity_x (s : RedHatBoyStateMachine) :
    (s.transition Event.jump).context.velocity.x = s.context.velocity.x := by
  cases s <;> rfl

/-- Helper: the Slide event never changes the horizontal velocity. -/
theorem transition_slide_velocity_x (s : RedHatBoyStateMachine) :
    (s.transition Event.slide).context.velocity.x = s.context.velocity.x := by
  cases s <;> rfl

/-- Helper: a successful move-and-check pass returns exactly the input
obstacles, each moved horizontally by the given speed, in order. -/
theorem moveAndCheckAll_obstacles (speed : Int) :
    ∀ (os : List Obstacle) (boy boy' : RedHatBoy) (os' : List Obstacle),
      moveAndCheckAll speed boy os = some (boy', os') →
      os' = os.map (fun o => o.move_horizontally speed) := by
  intro os
  induction os with
  | nil =>
    intro boy boy' os' h
    simp [moveAndCheckAll] at h
    simp [h]
  | cons o rest ih =>
    intro boy boy' os' h
    simp only [moveAndCheckAll] at h
    cases hc : (o.move_horizontally speed).check_intersection boy with
    | none => simp [hc] at h
    | some boy1 =>
      simp only [hc] at h
      cases hr : moveAndCheckAll speed boy1 rest with
      | none => simp [hr] at h
      | some pr =>
        obtain ⟨boy2, os2⟩ := pr
        simp only [hr, Option.some.injEq, Prod.mk.injEq] at h
        obtain ⟨-, h2⟩ := h
        subst h2
        simp [ih boy1 boy2 os2 hr]

/-- Helper: one character tick keeps the horizontal walking speed. -/
theorem boy_update_walking_speed (b : RedHatBoy) :
    b.update.walking_speed = b.walking_speed :=
  transition_update_velocity_x b.state_machine

/-- Helper: the Jump input keeps the horizontal walking speed. -/
theorem boy_jump_walking_speed (b : RedHatBoy) :
    b.jump.walking_speed = b.walking_speed :=
  transition_jump_velocity_x b.state_machine

/-- Helper: the Slide input keeps the horizontal walking speed. -/
theorem boy_slide_walking_speed (b : RedHatBoy) :
    b.slide.walking_speed = b.walking_speed :=
  transition_slide_velocity_x b.state_machine

/-- C4 fails on the code: the Walking update retains an obstacle only when
its right edge is strictly positive, so a barrier with right edge exactly 0
is dropped, not retained.  `cWalkRetain` holds one such barrier and the
update returns a world with no obstacles. -/
theorem obstacle_drop_at_zero_counterexample :
    cWalkRetain.obstacles.map Obstacle.right = [0] ∧
    walkingStateUpdate cWalkRetain cNoKeys cEnvQuiet
      = some (WalkTheDogStateMachine.walking cWalkRetainNext) ∧
    cWalkRetainNext.obstacles = [] := by decide

/-- C4 (amended): in a Walking update that stays in Walking with the
timeline at or past the generation threshold, the surviving obstacle list
is exactly the input obstacles with strictly positive right edge — an
obstacle with right edge exactly 0 is dropped — each then moved left twice
by the walking speed. -/
theorem obstacle_retention_amended (w : Walk) (ks : KeyState) (env : Env)
    (w' : Walk)
    (htime : ¬ w.timeline < TIMELINE_MINIMUM)
    (h : walkingStateUpdate w ks env = some (.walking w')) :
    w'.obstacles = (w.obstacles.filter fun o => decide (o.right > 0)).map
        (fun o => (o.move_horizontally (-w.boy.walking_speed)).move_horizontally
          (-w.boy.walking_speed)) := by
  cases hk1 : ks.is_pressed "Space" <;>
    cases hk2 : ks.is_pressed "ArrowDown" <;>
    simp only [walkingStateUpdate, Walk.velocity, hk1, hk2, Bool.false_eq_true,
      if_false, if_true, ite_false, ite_true] at h
  all_goals
    split at h
    case h_1 => exact absurd h (by simp)
    case h_2 _ boy1 os1 heq1 =>
      split at h
      case h_1 => exact absurd h (by simp)
      case h_2 _ boy2 os2 heq2 =>
        rw [if_neg htime] at h
        repeat' split at h
        all_goals injection h with h1
        all_goals
          first
          | (injection h1 with h2
             subst h2
             have hos1 := moveAndCheckAll_obstacles _ _ _ _ _ heq1
             have hos2 := moveAndCheckAll_obstacles _ _ _ _ _ heq2
             simp [hos1, hos2, List.map_map, Function.comp, boy_update_walking_speed,
               boy_jump_walking_speed, boy_slide_walking_speed])
          | injection h1

/-- Witness for the amended C4 at `cWalkRetain`: the barrier with right
edge 0 is filtered out and nothing survives. -/
theorem obstacle_retention_amended_witness :
    cWalkRetainNext.obstacles
      = (cWalkRetain.obstacles.filter fun o => decide (o.right > 0)).map
        (fun o => (o.move_horizontally (-cWalkRetain.boy.walking_speed)).move_horizontally
          (-cWalkRetain.boy.walking_speed)) :=
  obstacle_retention_amended cWalkRetain cNoKeys cEnvQuiet cWalkRetainNext
    (by decide) (by decide)

/-- C2 is contradicted by the code at `cWalkScroll`: the Walking update
moves each background layer left by exactly the walking speed 3, but moves
the single obstacle left by 6 — twice the speed — because the source
duplicates the obstacle move/check loop. -/
theorem walking_double_scroll_eval :
    cWalkScroll.boy.walking_speed = 3 ∧
    cWalkScroll.obstacles.map Obstacle.right = [130] ∧
    walkingStateUpdate cWalkScroll cNoKeys cEnvQuiet
      = some (WalkTheDogStateMachine.walking cWalkScrollNext) ∧
    cWalkScrollNext.backgrounds.1.bounding_box.x
      = cWalkScroll.backgrounds.1.bounding_box.x - 3 ∧
    cWalkScrollNext.backgrounds.2.bounding_box.x
      = cWalkScroll.backgrounds.2.bounding_box.x - 3 ∧
    cWalkScrollNext.obstacles.map Obstacle.right = [130 - 2 * 3] := by decide

/-- C9: on the new-game signal the GameOver state returns to Ready with the
character reset to the initial Idle state at the fixed start position, the
obstacle list replaced by the freshly generated starting set, and both
background layers untouched. -/
theorem new_game_reset (w : Walk) (env : Env)
    (h : env.newGamePressed = true) :
    gameOverStateUpdate w env = .ready w.reset ∧
    w.reset.boy.state_machine = .idle idleNewContext ∧
    idleNewContext =
      { frame := 0, position := { x := STARTING_POINT, y := FLOOR }
        velocity := { x := 0, y := 0 } } ∧
    w.reset.obstacles = stone_and_platform w.stone w.obstacle_sheet 0 ∧
    w.reset.backgrounds = w.backgrounds :=
  ⟨by simp [gameOverStateUpdate, h], rfl, rfl, rfl, rfl⟩

/-- Witness for C9 on a concrete world with the new-game signal delivered. -/
theorem new_game_reset_witness :
    gameOverStateUpdate cWalkRetain { rngChoice := 0, newGamePressed := true }
      = .ready cWalkRetain.reset ∧
    cWalkRetain.reset.boy.state_machine = .idle idleNewContext ∧
    idleNewContext =
      { frame := 0, position := { x := STARTING_POINT, y := FLOOR }
        velocity := { x := 0, y := 0 } } ∧
    cWalkRetain.reset.obstacles
      = stone_and_platform cWalkRetain.stone cWalkRetain.obstacle_sheet 0 ∧
    cWalkRetain.reset.backgrounds = cWalkRetain.backgrounds :=
  new_game_reset cWalkRetain { rngChoice := 0, newGamePressed := true } rfl

/-- C10: the top-level update preserves the presence of the run state
machine — a present machine is stepped once and stays present (the trailing
assertion holds) — and an absent machine makes the assertion fail, i.e. the
update panics. -/
theorem update_preserves_machine (g : WalkTheDog) (ks : KeyState) (env : Env) :
    (g.machine = none → g.update ks env = none) ∧
    (∀ m m', g.machine = some m → m.update ks env = some m' →
      g.update ks env = some { machine := some m' }) := by
  constructor
  · intro h
    simp [WalkTheDog.update, h]
  · intro m m' hm hup
    simp [WalkTheDog.update, hm, hup]

/-- Witness for C10: an uninitialized game panics, and a Ready-state game
steps its machine by one Ready update. -/
theorem update_preserves_machine_witness :
    WalkTheDog.update { machine := none } cNoKeys cEnvQuiet = none ∧
    WalkTheDog.update { machine := some (.ready cWalkRetain) } cNoKeys cEnvQuiet
      = some { machine := some (readyStateUpdate cWalkRetain cNoKeys) } :=
  ⟨(update_preserves_machine { machine := none } cNoKeys cEnvQuiet).1 rfl,
   (update_preserves_machine { machine := some (.ready cWalkRetain) } cNoKeys
      cEnvQuiet).2 (.ready cWalkRetain) (readyStateUpdate cWalkRetain cNoKeys)
     rfl rfl⟩

end WasmGame
